import Mathlib

set_option autoImplicit false
set_option linter.unusedVariables false

/-!
Verification of the mmkk-backend revenue-intelligence core against its
specification.  The Python source is shallowly embedded: SQLAlchemy rows
become structures with `Option` for nullable columns, Python floats become
rationals (every constant in the source — 10.0, 1.5, 3.0, 0.5 — is exactly
representable), timestamps become integers carrying only their order and
day-difference arithmetic, and dict/defaultdict state becomes association
lists that preserve insertion order exactly as Python dicts do.
-/

namespace MMKK

/-- `models.Event`, restricted to the columns the scoring and attribution
code reads.  `event_metadata` is an open JSON bag in the source; the three
keys the code consults are modelled as fields: `mdChannel` is
`event_metadata["channel"]`, `mdRevenue` is `event_metadata["revenue"]`
(outer `none` = key absent, inner `none` = present but unparseable as
float), and `mdIsConversion` is the truthiness of
`event_metadata["is_conversion"]`. -/
structure Event where
  account_id : String
  event_type : Option String
  source : Option String
  mdChannel : Option String
  mdRevenue : Option (Option ℚ)
  mdIsConversion : Bool
  value : Option ℚ
  duration : Option Int
  created_at : Int
  deriving Repr, DecidableEq

/-- `models.Account`, restricted to the columns the core logic reads.
All five score columns are nullable floats defaulting to 0.0; the code
reads them as `account.x or 0.0`. -/
structure Account where
  id : String
  name : String
  owner : Option String
  country : Option String
  industry : Option String
  stage : Option String
  intent_score : Option ℚ
  fit_score : Option ℚ
  engagement_score : Option ℚ
  predictive_score : Option ℚ
  total_score : Option ℚ
  buyer_stage : Option String
  last_event_at : Option Int
  deriving Repr, DecidableEq

/-- `scoring.ScoreTotals`. -/
structure ScoreTotals where
  intent_score : ℚ
  fit_score : ℚ
  engagement_score : ℚ
  predictive_score : ℚ
  total_score : ℚ
  deriving Repr, DecidableEq

/-- Python `str.lower()` for the ASCII identifiers this code base compares
(event types, stages, country codes). -/
def pyLower (s : String) : String := ⟨s.data.map Char.toLower⟩

/-- `scoring._event_intent_weight`: `et = (event.event_type or "").lower()`,
then membership in the three literal sets, defaulting to 1.0. -/
def event_intent_weight (event : Event) : ℚ :=
  let et := pyLower (event.event_type.getD "")
  if et = "form_submit" ∨ et = "signup" ∨ et = "demo_request" then 10
  else if et = "pageview" ∨ et = "page_view" then 1.5
  else if et = "email_click" then 3
  else 1

/-- `scoring._event_engagement_weight`.  In the source,
`event.duration and event.duration > 120`: a `None` duration short-circuits
to the final `return 1.0`, and a duration of `0` is falsy but `0 > 120` is
false anyway, so the `Option` match below is extensionally exact. -/
def event_engagement_weight (event : Event) : ℚ :=
  match event.duration with
  | some d => if d > 120 then 3 else if d > 30 then 2 else 1
  | none => 1

/-- `scoring._buyer_stage_from_scores`: only `total` is consulted. -/
def buyer_stage_from_scores (intent engagement total : ℚ) : String :=
  let score := total
  if score ≥ 80 then "buying"
  else if score ≥ 50 then "evaluating"
  else if score ≥ 25 then "considering"
  else if score ≥ 10 then "aware"
  else "unaware"

/-- `scoring.score_event`: given an Account + new Event, compute the
event-level intent/engagement contributions and the updated totals. -/
def score_event (account : Account) (event : Event) : ℚ × ℚ × ScoreTotals :=
  let base_intent := account.intent_score.getD 0
  let base_engagement := account.engagement_score.getD 0
  let base_fit := account.fit_score.getD 0
  let base_predictive := account.predictive_score.getD 0
  let intent_weight := event_intent_weight event
  let engagement_weight := event_engagement_weight event
  let event_intent := intent_weight
  let event_engagement := engagement_weight
  let new_intent := base_intent + event_intent
  let new_engagement := base_engagement + event_engagement
  let new_fit := base_fit
  let new_predictive := base_predictive + 0.5 * (event_intent + event_engagement)
  let new_total := new_intent + new_engagement + new_fit + new_predictive
  (event_intent, event_engagement,
    { intent_score := new_intent
      fit_score := new_fit
      engagement_score := new_engagement
      predictive_score := new_predictive
      total_score := new_total })

/-- An account whose five score columns are all 0.0 and all other nullable
columns NULL; used as concrete input in several theorems. -/
def zeroAccount : Account :=
  { id := "acc-1", name := "Acme", owner := none, country := none,
    industry := none, stage := none,
    intent_score := some 0, fit_score := some 0, engagement_score := some 0,
    predictive_score := some 0, total_score := some 0,
    buyer_stage := none, last_event_at := none }

/-- A bare "signup" event with no revenue, no duration, no metadata. -/
def signupEvent : Event :=
  { account_id := "acc-1", event_type := some "signup", source := none,
    mdChannel := none, mdRevenue := none, mdIsConversion := false,
    value := none, duration := none, created_at := 0 }

/-- Same zero-score account but with an inconsistent stored `total_score`
of 100.0 (the column is independently settable in the data model). -/
def inflatedAccount : Account :=
  { zeroAccount with total_score := some 100 }

/-- A bare "pageview" event (intent weight 1.5, engagement weight 1.0). -/
def pageviewEvent : Event :=
  { signupEvent with event_type := some "pageview" }

/-- The signup event carrying an explicit revenue value of 100.0. -/
def signupEventRev : Event :=
  { signupEvent with value := some 100 }

/-- Evaluation of `pyLower` on the ASCII literals used in the theorems. -/
@[simp] theorem pyLower_signup : pyLower "signup" = "signup" := rfl

@[simp] theorem pyLower_pageview : pyLower "pageview" = "pageview" := rfl

/-- The intent weight is at least 1 for every event (all branches of the
lookup return 1, 1.5, 3 or 10). -/
theorem one_le_event_intent_weight (event : Event) :
    1 ≤ event_intent_weight event := by
  simp only [event_intent_weight]
  split_ifs <;> norm_num

/-- The engagement weight is at least 1 for every event. -/
theorem one_le_event_engagement_weight (event : Event) :
    1 ≤ event_engagement_weight event := by
  unfold event_engagement_weight
  cases event.duration with
  | none => norm_num
  | some d =>
    show (1:ℚ) ≤ if d > 120 then 3 else if d > 30 then 2 else 1
    split_ifs <;> norm_num

/-- C1 counterexample: on the all-zero account and a bare "signup" event,
`score_event` returns event intent contribution 10 and intent_score 10 as
the claim says, but total_score is 16.5, not 10: the default engagement
weight 1.0 and the predictive increment 0.5×(10+1) = 5.5 also enter the
total. -/
theorem score_event_signup_total_ne_ten :
    (score_event zeroAccount signupEvent).1 = 10 ∧
    (score_event zeroAccount signupEvent).2.2.intent_score = 10 ∧
    (score_event zeroAccount signupEvent).2.2.total_score ≠ 10 := by
  refine ⟨rfl, ?_, ?_⟩ <;>
  · simp only [score_event, event_intent_weight, event_engagement_weight,
      zeroAccount, signupEvent, pyLower_signup]
    norm_num

/-- C1 (amended): on the all-zero account, one "signup" event with no
revenue yields event intent contribution 10, event engagement contribution
1, and updated totals intent 10, engagement 1, fit 0, predictive 5.5,
total 16.5. -/
theorem score_event_signup_scenario :
    score_event zeroAccount signupEvent =
      (10, 1, { intent_score := 10, fit_score := 0, engagement_score := 1,
                predictive_score := 5.5, total_score := 16.5 }) := by
  simp only [score_event, event_intent_weight, event_engagement_weight,
    zeroAccount, signupEvent, pyLower_signup, Prod.mk.injEq,
    ScoreTotals.mk.injEq]
  norm_num

/-- C2: the buyer-stage classifier is a pure function of the total score
with the thresholds 80/50/25/10 evaluated high-to-low: ≥80 buying,
50–80 evaluating, 25–50 considering, 10–25 aware, below 10 unaware. -/
theorem buyer_stage_thresholds (i e t : ℚ) :
    (80 ≤ t → buyer_stage_from_scores i e t = "buying") ∧
    (50 ≤ t → t < 80 → buyer_stage_from_scores i e t = "evaluating") ∧
    (25 ≤ t → t < 50 → buyer_stage_from_scores i e t = "considering") ∧
    (10 ≤ t → t < 25 → buyer_stage_from_scores i e t = "aware") ∧
    (t < 10 → buyer_stage_from_scores i e t = "unaware") := by
  refine ⟨fun h => ?_, fun h1 h2 => ?_, fun h1 h2 => ?_, fun h1 h2 => ?_,
    fun h => ?_⟩ <;>
  · simp only [buyer_stage_from_scores, ge_iff_le]
    split_ifs <;> first | rfl | linarith

/-- C2 witness: the boundary values from the spec, total 80 classifies as
"buying" and a total just below 80 as "evaluating". -/
theorem buyer_stage_thresholds_witness :
    buyer_stage_from_scores 0 0 80 = "buying" ∧
    buyer_stage_from_scores 0 0 79.999 = "evaluating" :=
  ⟨(buyer_stage_thresholds 0 0 80).1 (by norm_num),
   (buyer_stage_thresholds 0 0 79.999).2.1 (by norm_num) (by norm_num)⟩

/-- C3: `score_event` never changes fit_score — the returned totals carry
exactly the prior fit_score (absent read as 0), for every account and
every event. -/
theorem score_event_fit_invariant (account : Account) (event : Event) :
    (score_event account event).2.2.fit_score = account.fit_score.getD 0 := rfl

/-- C4 counterexample: on an account whose stored total_score (100.0) is
larger than the sum of its component scores (all 0.0), a plain pageview
event makes `score_event` return total_score 3.75 < 100 — the function
recomputes the total from the components, so the claimed unconditional
monotonicity of total_score fails. -/
theorem score_event_total_can_decrease :
    (score_event inflatedAccount pageviewEvent).2.2.total_score <
      inflatedAccount.total_score.getD 0 := by
  simp only [score_event, event_intent_weight, event_engagement_weight,
    inflatedAccount, zeroAccount, pageviewEvent, signupEvent, pyLower_pageview]
  simp
  norm_num

/-- C4 (amended): intent_score, engagement_score and predictive_score
never decrease under `score_event` for any account and event; total_score
does not decrease provided the prior stored total_score is at most the sum
of the four prior component scores (which holds in particular for every
state `score_event` itself produces). -/
theorem score_event_monotone (account : Account) (event : Event) :
    account.intent_score.getD 0 ≤ (score_event account event).2.2.intent_score ∧
    account.engagement_score.getD 0 ≤ (score_event account event).2.2.engagement_score ∧
    account.predictive_score.getD 0 ≤ (score_event account event).2.2.predictive_score ∧
    (account.total_score.getD 0 ≤
        account.intent_score.getD 0 + account.engagement_score.getD 0 +
        account.fit_score.getD 0 + account.predictive_score.getD 0 →
      account.total_score.getD 0 ≤ (score_event account event).2.2.total_score) := by
  have hi := one_le_event_intent_weight event
  have he := one_le_event_engagement_weight event
  simp only [score_event]
  refine ⟨by linarith, by linarith, by linarith, fun h => by linarith⟩

/-- C4 witness: on the all-zero account (whose stored total 0 equals the
component sum 0) and the signup event, the prior total 0 is at most the
updated total. -/
theorem score_event_monotone_witness :
    zeroAccount.total_score.getD 0 ≤
      (score_event zeroAccount signupEvent).2.2.total_score :=
  (score_event_monotone zeroAccount signupEvent).2.2.2 (by norm_num [zeroAccount])

/-- C5 counterexample: attaching revenue 100.0 to the signup event changes
nothing — `score_event` returns exactly the same contributions and totals
as without revenue, and the intent contribution stays 10 rather than
gaining any +0.1×revenue bonus. -/
theorem score_event_revenue_no_bonus :
    score_event zeroAccount signupEventRev = score_event zeroAccount signupEvent ∧
    (score_event zeroAccount signupEventRev).1 = 10 ∧
    (score_event zeroAccount signupEventRev).1 ≠ 10 + 0.1 * 100 := by
  refine ⟨rfl, rfl, ?_⟩
  simp only [score_event, event_intent_weight, signupEventRev, signupEvent,
    pyLower_signup]
  norm_num

/-- C5 (amended): `score_event` ignores revenue entirely — replacing the
event's value column and its metadata revenue by anything whatsoever
leaves the contributions and updated totals unchanged, so no revenue bonus
(positive or negative) is ever applied. -/
theorem score_event_ignores_revenue (account : Account) (event : Event)
    (r : Option ℚ) (mr : Option (Option ℚ)) :
    score_event account { event with value := r, mdRevenue := mr } =
      score_event account event := by
  cases event
  rfl

/-! ## Attribution engine (`analytics.multi_touch_attribution`) -/

/-- Modelled from the spec: the response row `AttributedChannel` — its
pydantic definition lives in the schemas module, which is not among the
sources; spec §3 lists its fields (channel name, first_touch_revenue,
last_touch_revenue, linear_revenue, conversions count), and the
attribution code constructs it as `AttributedChannel(channel=name)` and
then increments the aggregates in place, so the four aggregates start
at zero. -/
structure AttributedChannel where
  channel : String
  first_touch_revenue : ℚ := 0
  last_touch_revenue : ℚ := 0
  linear_revenue : ℚ := 0
  conversions : Nat := 0
  deriving Repr

/-- `analytics.multi_touch_attribution.get_channel_name`:
`ch = ev.source or md.get("channel"); return ch or "unknown"`, with
Python's falsy empty string handled explicitly. -/
def get_channel_name (ev : Event) : String :=
  let ch : Option String :=
    match ev.source with
    | some s => if s = "" then ev.mdChannel else some s
    | none => ev.mdChannel
  match ch with
  | some s => if s = "" then "unknown" else s
  | none => "unknown"

/-- `analytics.multi_touch_attribution.get_revenue`: the value column if
present, else metadata revenue parsed as float (0.0 when absent or
unparseable). -/
def get_revenue (ev : Event) : ℚ :=
  match ev.value with
  | some v => v
  | none =>
    match ev.mdRevenue with
    | some (some r) => r
    | some none => 0
    | none => 0

/-- `analytics.multi_touch_attribution.is_conversion`. -/
def is_conversion (ev : Event) : Bool :=
  if ev.mdIsConversion then true
  else if get_revenue ev > 0 then true
  else
    match ev.event_type with
    | some t =>
        (["booking", "purchase", "deal_closed", "opportunity_won",
          "form_submit"] : List String).contains t
    | none => false

/-- `channel_stats` is a Python dict (insertion-ordered, unique keys)
of mutable `AttributedChannel` rows; it is modelled as an association
list.  `statUpdate stats name f` is `f` applied in place to
`stat_for(name)`: the first (and only) row keyed `name` is updated, or a
fresh zero row is appended at the end, exactly as dict insertion does. -/
def statUpdate : List AttributedChannel → String →
    (AttributedChannel → AttributedChannel) → List AttributedChannel
  | [], name, f => [f { channel := name }]
  | c :: rest, name, f =>
      if c.channel = name then f c :: rest else c :: statUpdate rest name f

/-- The body of the `for conv in ...` loop of
`analytics.multi_touch_attribution`: skip when revenue ≤ 0, build the
path of touches up to the conversion, skip when empty, then credit
first touch, last touch (with the conversions counter), and a linear
share of revenue/len(path) per touch.  Python's `path[0]` and `path[-1]`
on the non-empty path are rendered as `headD`/`getLastD`, whose default
argument is never reached. -/
def processConversion (touches : List Event)
    (stats : List AttributedChannel) (conv : Event) :
    List AttributedChannel :=
  let revenue := get_revenue conv
  if revenue ≤ 0 then stats
  else
    let path := touches.filter (fun e => e.created_at ≤ conv.created_at)
    if path.isEmpty then stats
    else
      let first := path.headD conv
      let last := path.getLastD conv
      let stats1 := statUpdate stats (get_channel_name first)
        (fun c => { c with first_touch_revenue := c.first_touch_revenue + revenue })
      let stats2 := statUpdate stats1 (get_channel_name last)
        (fun c => { c with last_touch_revenue := c.last_touch_revenue + revenue,
                           conversions := c.conversions + 1 })
      let share := revenue / (path.length : ℚ)
      path.foldl
        (fun st e => statUpdate st (get_channel_name e)
          (fun c => { c with linear_revenue := c.linear_revenue + share }))
        stats2

/-- The body of the `for account_id, acc_events in ...` loop: keep the
touches (events with a known channel), skip the account if there are
none, then process every conversion event in order. -/
def processAccount (stats : List AttributedChannel)
    (acc_events : List Event) : List AttributedChannel :=
  let touches := acc_events.filter (fun e => get_channel_name e ≠ "unknown")
  if touches.isEmpty then stats
  else
    (acc_events.filter (fun e => is_conversion e)).foldl
      (processConversion touches) stats

/-- `events_by_account`: a `defaultdict(list)` filled in event order, so
accounts appear in order of their first event and each group keeps event
order. -/
def groupByAccount (events : List Event) : List (String × List Event) :=
  events.foldl
    (fun groups e =>
      if groups.any (fun g => g.1 = e.account_id) then
        groups.map (fun g =>
          if g.1 = e.account_id then (g.1, g.2 ++ [e]) else g)
      else groups ++ [(e.account_id, [e])])
    []

/-- `analytics.multi_touch_attribution`, applied to the event list the
query returns (already workspace- and lookback-filtered and ordered by
(account_id, created_at); the SQL query itself is persistence transport
and is not modelled).  Returns `list(channel_stats.values())` — note: no
sort is applied. -/
def multi_touch_attribution (events : List Event) : List AttributedChannel :=
  (groupByAccount events).foldl (fun stats g => processAccount stats g.2) []

/-- Sum of the linear_revenue column over the per-channel rows. -/
def sumLinear (stats : List AttributedChannel) : ℚ :=
  (stats.map (fun c => c.linear_revenue)).sum

/-- The channel-name column of the per-channel rows. -/
def channelsOf (stats : List AttributedChannel) : List String :=
  stats.map (fun c => c.channel)

/-- `statUpdate` shifts the linear_revenue total by exactly the delta the
update function adds to it. -/
theorem sumLinear_statUpdate (stats : List AttributedChannel) (name : String)
    (f : AttributedChannel → AttributedChannel) (d : ℚ)
    (hf : ∀ c, (f c).linear_revenue = c.linear_revenue + d) :
    sumLinear (statUpdate stats name f) = sumLinear stats + d := by
  induction stats with
  | nil => simp [statUpdate, sumLinear, hf]
  | cons c rest ih =>
    simp only [statUpdate]
    split_ifs with h
    · simp only [sumLinear, List.map_cons, List.sum_cons, hf]
      ring
    · simp only [sumLinear, List.map_cons, List.sum_cons] at ih ⊢
      rw [ih]
      ring

/-- Folding a per-touch linear credit of `share` over a path adds
`path.length × share` to the linear_revenue total. -/
theorem sumLinear_foldl_share (path : List Event) (share : ℚ)
    (stats : List AttributedChannel) :
    sumLinear (path.foldl
      (fun st e => statUpdate st (get_channel_name e)
        (fun c => { c with linear_revenue := c.linear_revenue + share }))
      stats) = sumLinear stats + (path.length : ℚ) * share := by
  induction path generalizing stats with
  | nil => simp
  | cons e es ih =>
    simp only [List.foldl_cons, List.length_cons]
    rw [ih, sumLinear_statUpdate _ _ _ share (fun c => rfl)]
    push_cast
    ring

/-- C6: for every single conversion with resolved revenue R > 0 whose
touch path is nonempty, processing that conversion adds exactly R to the
total linear credit across all channels — each of the N touches in the
path receives R/N, and a channel occurring k times accumulates k shares. -/
theorem linear_attribution_conserves_revenue (touches : List Event)
    (stats : List AttributedChannel) (conv : Event)
    (hrev : 0 < get_revenue conv)
    (hpath : touches.filter (fun e => e.created_at ≤ conv.created_at) ≠ []) :
    sumLinear (processConversion touches stats conv) =
      sumLinear stats + get_revenue conv := by
  simp only [processConversion]
  rw [if_neg (not_le.mpr hrev)]
  rw [if_neg (by simpa [List.isEmpty_iff] using hpath)]
  rw [sumLinear_foldl_share]
  rw [sumLinear_statUpdate _ _ _ 0 (fun c => by simp)]
  rw [sumLinear_statUpdate _ _ _ 0 (fun c => by simp)]
  have hlen : (((touches.filter
      (fun e => e.created_at ≤ conv.created_at)).length : ℚ)) ≠ 0 :=
    ne_of_gt (by exact_mod_cast List.length_pos.mpr hpath)
  rw [mul_div_cancel₀ _ hlen]
  ring

/-- A single concrete touch on channel "A" at time 0. -/
def touchA : Event :=
  { account_id := "acc-1", event_type := some "pageview", source := some "A",
    mdChannel := none, mdRevenue := none, mdIsConversion := false,
    value := none, duration := none, created_at := 0 }

/-- A concrete conversion at time 1 with revenue 100. -/
def convEx : Event :=
  { account_id := "acc-1", event_type := some "purchase", source := some "B",
    mdChannel := none, mdRevenue := none, mdIsConversion := false,
    value := some 100, duration := none, created_at := 1 }

/-- C6 witness: processing the concrete conversion `convEx` against the
single touch `touchA` adds exactly its revenue to the linear total. -/
theorem linear_attribution_conserves_revenue_witness :
    sumLinear (processConversion [touchA] [] convEx) =
      sumLinear [] + get_revenue convEx :=
  linear_attribution_conserves_revenue [touchA] [] convEx
    (by norm_num [get_revenue, convEx])
    (by simp [touchA, convEx])

/-- `statUpdate` leaves the channel-name column unchanged when the key is
already present, and appends the key at the end when it is new. -/
theorem channelsOf_statUpdate (stats : List AttributedChannel) (name : String)
    (f : AttributedChannel → AttributedChannel)
    (hf : ∀ c, (f c).channel = c.channel) :
    channelsOf (statUpdate stats name f) =
      if name ∈ channelsOf stats then channelsOf stats
      else channelsOf stats ++ [name] := by
  induction stats with
  | nil => simp [statUpdate, channelsOf, hf]
  | cons c rest ih =>
    by_cases h : c.channel = name
    · simp [statUpdate, h, channelsOf, hf c]
    · simp only [statUpdate, if_neg h, channelsOf, List.map_cons] at ih ⊢
      rw [ih]
      by_cases hm : name ∈ rest.map (fun x => x.channel)
      · simp [hm, Ne.symm h]
      · simp [hm, Ne.symm h]

/-- `statUpdate` with a channel-preserving update keeps the channel
names duplicate-free. -/
theorem nodup_channels_statUpdate (stats : List AttributedChannel)
    (name : String) (f : AttributedChannel → AttributedChannel)
    (hf : ∀ c, (f c).channel = c.channel)
    (h : (channelsOf stats).Nodup) :
    (channelsOf (statUpdate stats name f)).Nodup := by
  rw [channelsOf_statUpdate stats name f hf]
  split_ifs with hm
  · exact h
  · exact h.append (List.nodup_singleton name)
      (by simpa [List.disjoint_singleton] using hm)

/-- Any fold of channel-preserving `statUpdate`s keeps the channel names
duplicate-free. -/
theorem nodup_channels_foldl_statUpdate
    (g : Event → AttributedChannel → AttributedChannel)
    (hg : ∀ e c, (g e c).channel = c.channel) (path : List Event)
    (stats : List AttributedChannel) (h : (channelsOf stats).Nodup) :
    (channelsOf (path.foldl
      (fun st e => statUpdate st (get_channel_name e) (g e)) stats)).Nodup := by
  induction path generalizing stats with
  | nil => simpa
  | cons e es ih =>
    exact ih _ (nodup_channels_statUpdate _ _ _ (hg e) h)

/-- Processing one conversion keeps the channel names duplicate-free. -/
theorem nodup_channels_processConversion (touches : List Event)
    (stats : List AttributedChannel) (conv : Event)
    (h : (channelsOf stats).Nodup) :
    (channelsOf (processConversion touches stats conv)).Nodup := by
  simp only [processConversion]
  split
  · exact h
  · split
    · exact h
    · apply nodup_channels_foldl_statUpdate
      · intro e c
        rfl
      · apply nodup_channels_statUpdate
        · intro c
          rfl
        · apply nodup_channels_statUpdate
          · intro c
            rfl
          · exact h

/-- Folding a conversion list keeps the channel names duplicate-free. -/
theorem nodup_channels_foldl_processConversion (touches : List Event)
    (convs : List Event) (stats : List AttributedChannel)
    (h : (channelsOf stats).Nodup) :
    (channelsOf (convs.foldl (processConversion touches) stats)).Nodup := by
  induction convs generalizing stats with
  | nil => simpa
  | cons c cs ih => exact ih _ (nodup_channels_processConversion _ _ _ h)

/-- Processing one account group keeps the channel names duplicate-free. -/
theorem nodup_channels_processAccount (stats : List AttributedChannel)
    (acc_events : List Event) (h : (channelsOf stats).Nodup) :
    (channelsOf (processAccount stats acc_events)).Nodup := by
  simp only [processAccount]
  split
  · exact h
  · exact nodup_channels_foldl_processConversion _ _ _ h

/-- C7 (amended): the attribution breakdown has at most one row per
channel — the channel names of its rows are pairwise distinct.  Rows
stand in dict insertion order (first time a channel received credit);
no sort by linear_revenue is applied. -/
theorem attribution_channels_nodup (events : List Event) :
    (channelsOf (multi_touch_attribution events)).Nodup := by
  unfold multi_touch_attribution
  have key : ∀ (groups : List (String × List Event))
      (stats : List AttributedChannel), (channelsOf stats).Nodup →
      (channelsOf (groups.foldl
        (fun s g => processAccount s g.2) stats)).Nodup := by
    intro groups
    induction groups with
    | nil => intro stats h; simpa
    | cons g gs ih =>
        intro stats h
        exact ih _ (nodup_channels_processAccount _ _ h)
  exact key _ [] (by simp [channelsOf])

/-- Touch on channel "A" at time 1 (pageview, no revenue). -/
def eA : Event :=
  { account_id := "acc-1", event_type := some "pageview", source := some "A",
    mdChannel := none, mdRevenue := none, mdIsConversion := false,
    value := none, duration := none, created_at := 1 }

/-- Conversion on channel "B" at time 2 with revenue 100. -/
def eB1 : Event :=
  { account_id := "acc-1", event_type := some "purchase", source := some "B",
    mdChannel := none, mdRevenue := none, mdIsConversion := false,
    value := some 100, duration := none, created_at := 2 }

/-- Conversion on channel "B" at time 3 with revenue 90. -/
def eB2 : Event :=
  { account_id := "acc-1", event_type := some "purchase", source := some "B",
    mdChannel := none, mdRevenue := none, mdIsConversion := false,
    value := some 90, duration := none, created_at := 3 }

/-- Evaluation of the per-event helper functions on the three concrete
events, used to drive the concrete attribution run. -/
@[simp] theorem eA_account : eA.account_id = "acc-1" := rfl

@[simp] theorem eB1_account : eB1.account_id = "acc-1" := rfl

@[simp] theorem eB2_account : eB2.account_id = "acc-1" := rfl

@[simp] theorem eA_created : eA.created_at = 1 := rfl

@[simp] theorem eB1_created : eB1.created_at = 2 := rfl

@[simp] theorem eB2_created : eB2.created_at = 3 := rfl

@[simp] theorem gcn_eA : get_channel_name eA = "A" := rfl

@[simp] theorem gcn_eB1 : get_channel_name eB1 = "B" := rfl

@[simp] theorem gcn_eB2 : get_channel_name eB2 = "B" := rfl

@[simp] theorem rev_eA : get_revenue eA = 0 := rfl

@[simp] theorem rev_eB1 : get_revenue eB1 = 100 := rfl

@[simp] theorem rev_eB2 : get_revenue eB2 = 90 := rfl

@[simp] theorem conv_eA : is_conversion eA = false := by decide

@[simp] theorem conv_eB1 : is_conversion eB1 = true := by decide

@[simp] theorem conv_eB2 : is_conversion eB2 = true := by decide

/-- C7 counterexample: on the three events `eA, eB1, eB2` the attribution
run returns the row for channel "A" (linear 80) before the row for
channel "B" (linear 110) — first-encounter order — so the output is not
sorted by linear_revenue descending. -/
theorem attribution_rows_not_sorted :
    multi_touch_attribution [eA, eB1, eB2] =
      [{ channel := "A", first_touch_revenue := 190, last_touch_revenue := 0,
         linear_revenue := 80, conversions := 0 },
       { channel := "B", first_touch_revenue := 0, last_touch_revenue := 190,
         linear_revenue := 110, conversions := 2 }] ∧
    ¬ ((multi_touch_attribution [eA, eB1, eB2]).map
        (fun c => c.linear_revenue)).Sorted (fun a b => b ≤ a) := by
  have h : multi_touch_attribution [eA, eB1, eB2] =
      [{ channel := "A", first_touch_revenue := 190, last_touch_revenue := 0,
         linear_revenue := 80, conversions := 0 },
       { channel := "B", first_touch_revenue := 0, last_touch_revenue := 190,
         linear_revenue := 110, conversions := 2 }] := by
    simp [multi_touch_attribution, groupByAccount, processAccount,
      processConversion, statUpdate, List.getLastD,
      List.filter_cons, List.filter_nil, List.foldl_cons, List.foldl_nil,
      List.map_cons, List.map_nil, List.any_cons, List.any_nil,
      List.length_cons, List.length_nil, AttributedChannel.mk.injEq]
    norm_num
  refine ⟨h, ?_⟩
  rw [h]
  simp only [List.map_cons, List.map_nil, List.sorted_cons, List.mem_cons]
  norm_num

/-! ## Segmentation engine (`analytics.segment_accounts`) -/

/-- Modelled from the spec: `SegmentFilter` of the schemas module (whose
pydantic source is not among the files here): the optional industry and
pipeline-stage sets and the optional min_visits / max_inactive_days
bounds — exactly the four attributes `segment_accounts` reads (spec
§4.4). -/
structure SegmentFilter where
  industries : List String
  stages : List String
  min_visits : Option Int
  max_inactive_days : Option Int

/-- `Segment` (spec §3): a named bucket of account ids. -/
structure Segment where
  segment_name : String
  account_ids : List String
  deriving Repr, DecidableEq

/-- A segmentation request with no optional filters set. -/
def noFilter : SegmentFilter := ⟨[], [], none, none⟩

/-- The industry / pipeline-stage pre-filters `segment_accounts` pushes
into the accounts query (`Account.industry.in_(filters.industries)`
etc.); an empty list is falsy in Python so the filter is skipped, and a
NULL column is never a member of the IN-list. -/
def applyQueryFilters (filters : SegmentFilter) (accounts : List Account) :
    List Account :=
  let accounts1 :=
    if filters.industries.isEmpty then accounts
    else accounts.filter (fun a =>
      match a.industry with
      | some i => filters.industries.contains i
      | none => false)
  if filters.stages.isEmpty then accounts1
  else accounts1.filter (fun a =>
    match a.stage with
    | some s => filters.stages.contains s
    | none => false)

/-- The per-account body of the `for acc in accounts` loop of
`analytics.segment_accounts`: the optional min_visits /
max_inactive_days filters `continue` past the account, and otherwise
exactly one of the three buckets (active_high_intent, low_intent,
dormant) gets the account id appended.  `(now - last_seen).days` is
modelled as integer subtraction `now - last_seen`. -/
def segStep (now : Int) (evCounts : String → Nat) (filters : SegmentFilter)
    (b : List String × List String × List String) (acc : Account) :
    List String × List String × List String :=
  let total_visits : Int := (evCounts acc.id : Int)
  let last_seen := acc.last_event_at
  let skip_min : Bool :=
    match filters.min_visits with
    | some m => decide (total_visits < m)
    | none => false
  let skip_inactive : Bool :=
    match filters.max_inactive_days, last_seen with
    | some d, some ls => decide (now - ls > d)
    | _, _ => false
  if skip_min then b
  else if skip_inactive then b
  else if (decide (total_visits ≥ 5) &&
      match last_seen with
      | some ls => decide (now - ls ≤ 7)
      | none => false) then
    (b.1 ++ [acc.id], b.2.1, b.2.2)
  else if (match last_seen with
      | some ls => decide (now - ls > 30)
      | none => true) then
    (b.1, b.2.1, b.2.2 ++ [acc.id])
  else
    (b.1, b.2.1 ++ [acc.id], b.2.2)

/-- The final block of `analytics.segment_accounts`: each bucket is
appended to the segments list only when non-empty, in the fixed order
Active_high_intent, Low_intent, Dormant. -/
def segmentsOf (b : List String × List String × List String) :
    List Segment :=
  (if b.1.isEmpty then []
   else [{ segment_name := "Active_high_intent", account_ids := b.1 }]) ++
  (if b.2.1.isEmpty then []
   else [{ segment_name := "Low_intent", account_ids := b.2.1 }]) ++
  (if b.2.2.isEmpty then []
   else [{ segment_name := "Dormant", account_ids := b.2.2 }])

/-- `analytics.segment_accounts` on the workspace's accounts.  The DB
queries are persistence transport; `evCounts` stands for the
events-per-account count aggregation. -/
def segment_accounts (now : Int) (evCounts : String → Nat)
    (filters : SegmentFilter) (accounts : List Account) : List Segment :=
  let accs := applyQueryFilters filters accounts
  segmentsOf (accs.foldl (segStep now evCounts filters) ([], [], []))

/-- With no filters set, one loop step moves exactly the account's id
into the three buckets: the joined bucket contents gain `acc.id`. -/
theorem segStep_joined_perm (now : Int) (evCounts : String → Nat)
    (b : List String × List String × List String) (acc : Account) :
    (((segStep now evCounts noFilter b acc).1 ++
      (segStep now evCounts noFilter b acc).2.1 ++
      (segStep now evCounts noFilter b acc).2.2)).Perm
      ((b.1 ++ b.2.1 ++ b.2.2) ++ [acc.id]) := by
  simp only [segStep, noFilter]
  split_ifs <;>
    first
      | contradiction
      | (refine List.perm_iff_count.mpr fun x => ?_
         simp only [List.count_append]
         ring)

/-- Membership in `if c then [] else [w]` forces `¬c` and equality. -/
theorem mem_ite_nil_singleton {α : Type} {c : Prop} [Decidable c]
    {w s : α} (h : s ∈ (if c then ([] : List α) else [w])) :
    ¬c ∧ s = w := by
  split_ifs at h with hc
  · simp at h
  · simp at h
    exact ⟨hc, h⟩

/-- Joining the account-id columns of `segmentsOf b` gives back the
three buckets. -/
theorem segmentsOf_flatten (b : List String × List String × List String) :
    ((segmentsOf b).map (fun s => s.account_ids)).flatten =
      b.1 ++ b.2.1 ++ b.2.2 := by
  simp only [segmentsOf]
  split_ifs <;> simp_all [List.isEmpty_iff]

/-- Every segment emitted by `segmentsOf` is non-empty and carries one
of the three bucket names. -/
theorem segmentsOf_mem (b : List String × List String × List String)
    (s : Segment) (hs : s ∈ segmentsOf b) :
    s.account_ids ≠ [] ∧
    s.segment_name ∈ ["Active_high_intent", "Low_intent", "Dormant"] := by
  simp only [segmentsOf] at hs
  rcases List.mem_append.mp hs with hs2 | hs2
  · rcases List.mem_append.mp hs2 with hs3 | hs3
    · obtain ⟨hc, rfl⟩ := mem_ite_nil_singleton hs3
      exact ⟨by simpa [List.isEmpty_iff] using hc, by simp⟩
    · obtain ⟨hc, rfl⟩ := mem_ite_nil_singleton hs3
      exact ⟨by simpa [List.isEmpty_iff] using hc, by simp⟩
  · obtain ⟨hc, rfl⟩ := mem_ite_nil_singleton hs2
    exact ⟨by simpa [List.isEmpty_iff] using hc, by simp⟩

/-- C8: with no optional filters set, segmentation is a partition —
joining the account-id lists of the returned segments gives back exactly
the input accounts' ids (so every account lands in exactly one bucket),
every returned segment is non-empty, and only the three bucket names
occur. -/
theorem segmentation_partition (now : Int) (evCounts : String → Nat)
    (accounts : List Account) :
    (((segment_accounts now evCounts noFilter accounts).map
        (fun s => s.account_ids)).flatten).Perm
      (accounts.map (fun a => a.id)) ∧
    (∀ s ∈ segment_accounts now evCounts noFilter accounts,
      s.account_ids ≠ [] ∧
      s.segment_name ∈ ["Active_high_intent", "Low_intent", "Dormant"]) := by
  have hq : applyQueryFilters noFilter accounts = accounts := by
    simp [applyQueryFilters, noFilter]
  have key : ∀ (accs : List Account)
      (b : List String × List String × List String),
      (((accs.foldl (segStep now evCounts noFilter) b).1 ++
        (accs.foldl (segStep now evCounts noFilter) b).2.1 ++
        (accs.foldl (segStep now evCounts noFilter) b).2.2)).Perm
        ((b.1 ++ b.2.1 ++ b.2.2) ++ accs.map (fun a => a.id)) := by
    intro accs
    induction accs with
    | nil => intro b; simp
    | cons a as ih =>
      intro b
      simp only [List.foldl_cons, List.map_cons]
      refine (ih (segStep now evCounts noFilter b a)).trans ?_
      refine ((segStep_joined_perm now evCounts b a).append_right _).trans ?_
      rw [List.append_assoc]
      simp
  constructor
  · simp only [segment_accounts, hq, segmentsOf_flatten]
    simpa using key accounts ([], [], [])
  · intro s hs
    simp only [segment_accounts, hq] at hs
    exact segmentsOf_mem _ s hs

/-- C8 witness: the all-zero account (no last_event_at, zero events)
lands in the "Dormant" segment, which is therefore non-empty and
carries one of the three bucket names. -/
theorem segmentation_partition_witness :
    ({ segment_name := "Dormant", account_ids := ["acc-1"] } : Segment).account_ids ≠ [] ∧
    ({ segment_name := "Dormant", account_ids := ["acc-1"] } : Segment).segment_name ∈
      ["Active_high_intent", "Low_intent", "Dormant"] :=
  (segmentation_partition 0 (fun _ => 0) [zeroAccount]).2
    { segment_name := "Dormant", account_ids := ["acc-1"] }
    (by simp [segment_accounts, applyQueryFilters, noFilter, segStep,
      segmentsOf, zeroAccount])

/-! ## Playbook evaluation (`main._account_matches_rule` and
`main.evaluate_playbooks_for_account`, the engine behind the
run-playbooks endpoint) -/

/-- `models.PlaybookRule`: conditions (all nullable) and actions. -/
structure PlaybookRule where
  name : String
  description : Option String
  is_active : Bool
  min_total_score : Option ℚ
  min_intent_score : Option ℚ
  buyer_stage_in : Option (List String)
  countries_in : Option (List String)
  stages_in : Option (List String)
  has_open_tasks : Option Bool
  create_task : Bool
  create_alert : Bool
  push_to_crm : Bool
  task_title_template : Option String
  alert_title_template : Option String
  alert_severity : Option String
  owner : Option String
  deriving Repr

/-- One early-return check of `_account_matches_rule` for a numeric
threshold: `rule.x is not None and value < rule.x`. -/
def checkFailsMin (o : Option ℚ) (v : ℚ) : Bool :=
  match o with
  | some m => decide (v < m)
  | none => false

/-- One early-return check for a case-insensitive membership list:
`if rule.l:` (Python truthiness — None or empty both skip) followed by
`value.lower() not in {s.lower() for s in rule.l}`. -/
def checkFailsList (o : Option (List String)) (v : String) : Bool :=
  match o with
  | some l => !l.isEmpty && !((l.map pyLower).contains v)
  | none => false

/-- The open-tasks check: `has_open != rule.has_open_tasks` when the
condition is specified. -/
def checkFailsTasks (o : Option Bool) (has_open : Bool) : Bool :=
  match o with
  | some want => has_open != want
  | none => false

/-- `main._account_matches_rule`.  The open-task count query
(`db.query(Task).filter(..., Task.status != "done").count()`) is a
persistence collaborator, passed in as `openTaskCount`.  Each condition
is an early `return False` in the source; the final line returns
True. -/
def account_matches_rule (openTaskCount : Nat) (account : Account)
    (rule : PlaybookRule) : Bool :=
  if checkFailsMin rule.min_total_score (account.total_score.getD 0) then false
  else if checkFailsMin rule.min_intent_score (account.intent_score.getD 0) then false
  else if checkFailsList rule.buyer_stage_in (pyLower (account.buyer_stage.getD "")) then false
  else if checkFailsList rule.countries_in (pyLower (account.country.getD "")) then false
  else if checkFailsList rule.stages_in (pyLower (account.stage.getD "")) then false
  else if checkFailsTasks rule.has_open_tasks (decide (0 < openTaskCount)) then false
  else true

/-- The matching predicate exactly as the claim words it, for
comparison with the code: every specified (non-null) condition must
hold, and null conditions do not constrain the match. -/
def claim_matches_rule (openTaskCount : Nat) (account : Account)
    (rule : PlaybookRule) : Prop :=
  (∀ m, rule.min_total_score = some m → m ≤ account.total_score.getD 0) ∧
  (∀ m, rule.min_intent_score = some m → m ≤ account.intent_score.getD 0) ∧
  (∀ l, rule.buyer_stage_in = some l →
    pyLower (account.buyer_stage.getD "") ∈ l.map pyLower) ∧
  (∀ l, rule.countries_in = some l →
    pyLower (account.country.getD "") ∈ l.map pyLower) ∧
  (∀ l, rule.stages_in = some l →
    pyLower (account.stage.getD "") ∈ l.map pyLower) ∧
  (∀ w, rule.has_open_tasks = some w → ((0 < openTaskCount) ↔ w = true))

/-- A rule whose only set condition is an EMPTY (non-null)
buyer_stage_in list; all other conditions are null. -/
def emptyStageRule : PlaybookRule :=
  { name := "r1", description := none, is_active := true,
    min_total_score := none, min_intent_score := none,
    buyer_stage_in := some [], countries_in := none, stages_in := none,
    has_open_tasks := none, create_task := false, create_alert := false,
    push_to_crm := false, task_title_template := none,
    alert_title_template := none, alert_severity := none, owner := none }

/-- `checkFailsMin` fails exactly when a specified threshold is not
met. -/
theorem checkFailsMin_eq_false (o : Option ℚ) (v : ℚ) :
    checkFailsMin o v = false ↔ ∀ m, o = some m → m ≤ v := by
  cases o with
  | none => simp [checkFailsMin]
  | some m => simp [checkFailsMin, not_lt]

/-- `checkFailsList` fails exactly when a specified non-empty list does
not contain the lowered value. -/
theorem checkFailsList_eq_false (o : Option (List String)) (v : String) :
    checkFailsList o v = false ↔
      ∀ l, o = some l → l ≠ [] → v ∈ l.map pyLower := by
  cases o with
  | none => simp [checkFailsList]
  | some l =>
    cases l with
    | nil => simp [checkFailsList]
    | cons a as =>
      simp only [checkFailsList, List.elem_iff]
      simp [List.isEmpty]
      constructor
      · intro h
        by_cases hv : v = pyLower a
        · exact Or.inl hv.symm
        · exact Or.inr (h hv)
      · intro h hv
        rcases h with h | h
        · exact absurd h.symm hv
        · exact h

/-- `checkFailsTasks` fails exactly when the specified boolean matches
the open-task state. -/
theorem checkFailsTasks_eq_false (o : Option Bool) (h : Bool) :
    checkFailsTasks o h = false ↔ ∀ w, o = some w → h = w := by
  cases o with
  | none => simp [checkFailsTasks]
  | some w => cases w <;> cases h <;> simp [checkFailsTasks]

/-- An if-chain step `if c then false else x` is `!c && x`. -/
theorem if_bool_false_left (c x : Bool) :
    (if c then false else x) = (!c && x) := by
  cases c <;> simp

/-- C9 counterexample: the rule whose buyer_stage_in is the empty
(non-null) list matches the all-zero account under the code, but under
the claim's reading the specified membership condition cannot hold, so
the claimed equivalence fails at this input. -/
theorem matches_rule_empty_list_mismatch :
    account_matches_rule 0 zeroAccount emptyStageRule = true ∧
    ¬ claim_matches_rule 0 zeroAccount emptyStageRule := by
  constructor
  · rfl
  · intro h
    simpa using h.2.2.1 [] rfl

/-- C9 (amended): the code's match predicate holds iff every specified
condition holds, where the three membership conditions count as
specified only when the list is non-null AND non-empty (Python
truthiness skips an empty list): thresholds on total/intent score,
case-insensitive membership for buyer stage / country / pipeline stage,
and the open-tasks boolean; null conditions do not constrain the match,
and in particular a rule with all conditions null matches every
account. -/
theorem account_matches_rule_iff (openTaskCount : Nat) (account : Account)
    (rule : PlaybookRule) :
    (account_matches_rule openTaskCount account rule = true ↔
      ((∀ m, rule.min_total_score = some m →
          m ≤ account.total_score.getD 0) ∧
       (∀ m, rule.min_intent_score = some m →
          m ≤ account.intent_score.getD 0) ∧
       (∀ l, rule.buyer_stage_in = some l → l ≠ [] →
          pyLower (account.buyer_stage.getD "") ∈ l.map pyLower) ∧
       (∀ l, rule.countries_in = some l → l ≠ [] →
          pyLower (account.country.getD "") ∈ l.map pyLower) ∧
       (∀ l, rule.stages_in = some l → l ≠ [] →
          pyLower (account.stage.getD "") ∈ l.map pyLower) ∧
       (∀ w, rule.has_open_tasks = some w →
          ((0 < openTaskCount) ↔ w = true)))) ∧
    (rule.min_total_score = none → rule.min_intent_score = none →
      rule.buyer_stage_in = none → rule.countries_in = none →
      rule.stages_in = none → rule.has_open_tasks = none →
      account_matches_rule openTaskCount account rule = true) := by
  have hiff : account_matches_rule openTaskCount account rule = true ↔
      (checkFailsMin rule.min_total_score (account.total_score.getD 0) = false ∧
       checkFailsMin rule.min_intent_score (account.intent_score.getD 0) = false ∧
       checkFailsList rule.buyer_stage_in (pyLower (account.buyer_stage.getD "")) = false ∧
       checkFailsList rule.countries_in (pyLower (account.country.getD "")) = false ∧
       checkFailsList rule.stages_in (pyLower (account.stage.getD "")) = false ∧
       checkFailsTasks rule.has_open_tasks (decide (0 < openTaskCount)) = false) := by
    simp only [account_matches_rule, if_bool_false_left, Bool.and_eq_true,
      Bool.not_eq_true', and_true]
  constructor
  · rw [hiff]
    refine and_congr (checkFailsMin_eq_false _ _) ?_
    refine and_congr (checkFailsMin_eq_false _ _) ?_
    refine and_congr (checkFailsList_eq_false _ _) ?_
    refine and_congr (checkFailsList_eq_false _ _) ?_
    refine and_congr (checkFailsList_eq_false _ _) ?_
    rw [checkFailsTasks_eq_false]
    constructor
    · intro h w hw
      have := h w hw
      cases w <;> simp_all [Nat.pos_iff_ne_zero]
    · intro h w hw
      have := h w hw
      cases w <;> simp_all
  · intro h1 h2 h3 h4 h5 h6
    rw [hiff]
    simp [h1, h2, h3, h4, h5, h6, checkFailsMin, checkFailsList,
      checkFailsTasks]

/-- C9 witness: the all-null rule (emptyStageRule with buyer_stage_in
also cleared) matches the all-zero account via the vacuous-match
direction of the theorem. -/
theorem account_matches_rule_iff_witness :
    account_matches_rule 0 zeroAccount
      { emptyStageRule with buyer_stage_in := none } = true :=
  (account_matches_rule_iff 0 zeroAccount
    { emptyStageRule with buyer_stage_in := none }).2
    rfl rfl rfl rfl rfl rfl

/-- A side-effect request emitted by the playbook runner: a Task row or
an Alert row to persist (`db.add` in the source). -/
inductive PlaybookAction where
  | task (title : String) (description : Option String)
      (owner : Option String) : PlaybookAction
  | alert (title : String) (body : Option String)
      (severity : String) : PlaybookAction
  deriving Repr, DecidableEq

/-- `main.evaluate_playbooks_for_account` (main.py:489-533): the demo
playbook engine the program actually runs for playbook evaluation.  It
consults no stored rules; it reads the scores as `x or 0.0`, and when
`total >= 0 or intent >= 0` it `db.add`s one high-intent Alert
(severity "high") and one follow-up Task and returns
`(created_tasks, created_alerts) = (1, 1)`, else `(0, 0)` with nothing
added.  The added rows are returned as actions here, in `db.add`
order; Python's float interpolation in the alert body f-string is the
formatting collaborator `fmt`. -/
def evaluate_playbooks_for_account (fmt : ℚ → String) (account : Account) :
    Nat × Nat × List PlaybookAction :=
  let total := account.total_score.getD 0
  let intent := account.intent_score.getD 0
  if 0 ≤ total ∨ 0 ≤ intent then
    (1, 1,
      [PlaybookAction.alert ("High intent: " ++ account.name)
        (some ("Automation rule fired for " ++ account.name ++
          " (total=" ++ fmt total ++ ", intent=" ++ fmt intent ++ ")."))
        "high",
       PlaybookAction.task ("Follow up with " ++ account.name)
        (some "Auto-created from high-intent rule.") account.owner])
  else (0, 0, [])

/-- `run_playbooks_for_account` as the name is finally bound in the
module: the `POST /accounts/{account_id}/run-playbooks` endpoint at
main.py:1657, which delegates to `evaluate_playbooks_for_account`.  The
earlier module-level rule engine of the same name (main.py:1294) is
shadowed by this rebinding and has no caller, so it is dead code and
the program never checks stored rules.  The workspace's stored rule
list (ambient DB state) is passed explicitly so that its irrelevance
to the result can be stated. -/
def run_playbooks_endpoint (fmt : ℚ → String) (account : Account)
    (rules : List PlaybookRule) : Nat × Nat × List PlaybookAction :=
  evaluate_playbooks_for_account fmt account

/-- C10 counterexample: with an EMPTY stored rule list — there are no
active rules, so under the claim the evaluation pass could trigger no
actions — the program's playbook evaluation for the all-zero account
still returns created_tasks = 1, created_alerts = 1 and two fixed
actions (the hardcoded high-intent alert and follow-up task): the
evaluation never consults the rules at all. -/
theorem playbook_eval_fires_with_no_rules :
    run_playbooks_endpoint (fun _ => "0.0") zeroAccount [] =
      (1, 1,
        [PlaybookAction.alert "High intent: Acme"
          (some "Automation rule fired for Acme (total=0.0, intent=0.0).")
          "high",
         PlaybookAction.task "Follow up with Acme"
          (some "Auto-created from high-intent rule.") none]) ∧
    (run_playbooks_endpoint (fun _ => "0.0") zeroAccount []).2.2 ≠ [] := by
  constructor
  · rfl
  · intro h
    simp [run_playbooks_endpoint, evaluate_playbooks_for_account,
      zeroAccount] at h

/-- C10 (amended): the playbook evaluation the program actually runs
(the run-playbooks endpoint, i.e. `evaluate_playbooks_for_account`)
never consults stored playbook rules — its result is identical for any
two rule lists, so neither active nor inactive rules contribute
anything — and whenever total_score ≥ 0 or intent_score ≥ 0 (null
scores read as 0, so in particular for every account with default
scores) it creates exactly one high-intent alert and one follow-up
task with fixed content; when both scores are negative it creates
nothing. -/
theorem playbook_eval_rules_ignored (fmt : ℚ → String) (account : Account)
    (rules rules2 : List PlaybookRule) :
    (run_playbooks_endpoint fmt account rules =
      run_playbooks_endpoint fmt account rules2) ∧
    (0 ≤ account.total_score.getD 0 ∨ 0 ≤ account.intent_score.getD 0 →
      evaluate_playbooks_for_account fmt account =
        (1, 1,
          [PlaybookAction.alert ("High intent: " ++ account.name)
            (some ("Automation rule fired for " ++ account.name ++
              " (total=" ++ fmt (account.total_score.getD 0) ++
              ", intent=" ++ fmt (account.intent_score.getD 0) ++ ")."))
            "high",
           PlaybookAction.task ("Follow up with " ++ account.name)
            (some "Auto-created from high-intent rule.") account.owner])) ∧
    (account.total_score.getD 0 < 0 → account.intent_score.getD 0 < 0 →
      evaluate_playbooks_for_account fmt account = (0, 0, [])) := by
  refine ⟨rfl, fun h => ?_, fun h1 h2 => ?_⟩
  · simp only [evaluate_playbooks_for_account]
    rw [if_pos h]
  · simp only [evaluate_playbooks_for_account]
    rw [if_neg]
    rintro (hc | hc)
    · exact absurd hc (not_le.mpr h1)
    · exact absurd hc (not_le.mpr h2)

/-- C10 witness: for the all-zero account (scores 0 ≥ 0) the theorem
yields the concrete fixed alert-and-task output. -/
theorem playbook_eval_rules_ignored_witness :
    evaluate_playbooks_for_account (fun _ => "0.0") zeroAccount =
      (1, 1,
        [PlaybookAction.alert "High intent: Acme"
          (some "Automation rule fired for Acme (total=0.0, intent=0.0).")
          "high",
         PlaybookAction.task "Follow up with Acme"
          (some "Auto-created from high-intent rule.") none]) := by
  exact (playbook_eval_rules_ignored (fun _ => "0.0") zeroAccount [] []).2.1
    (Or.inl (by norm_num [zeroAccount]))

end MMKK
